import Mathlib

/-!
Verification of the ATS detection and application-flow subsystem of JobLens.

Shallow embedding of:
- `src/src/ats/application_flow_optimizer.py` (ATS detector, field filler,
  vendor strategies, dispatcher, application metrics), and
- `src/src/ats/csv_applicator.py` (CSV batch runner).

Modelling conventions
- Confidence scores are accumulated in the source as Python floats built only
  from the constants 0.1/0.2/0.3/0.6/0.9.  We model them as natural numbers in
  tenths (1/2/3/6/9).  All threshold comparisons the source performs
  (`confidence >= 0.6`) agree between double arithmetic and exact tenths for
  every reachable sum: sums of at most three 0.3-steps and five 0.2-steps stay
  within 1e-15 of their exact value, and the only sums landing exactly on the
  0.6 boundary (0.3+0.3 and 0.2+0.2+0.2) compare `>= 0.6` in doubles as well.
- Playwright page operations are external and fallible.  A probe that raises
  is modelled with `Option`: `none` means the call raised, and the source's
  per-probe `try/except` (or `safe_execute` with a default) decides how the
  `none` is absorbed.
- Wall-clock durations are external inputs; they are passed in explicitly.
- Running averages kept by the metrics are modelled over `ℚ`; the claims under
  verification only concern the integer counters.
-/

namespace JobLens

/-- Whether `needle` occurs at the start of `hay`. -/
def startsList : List Char → List Char → Bool
  | [], _ => true
  | _ :: _, [] => false
  | a :: as, b :: bs => a == b && startsList as bs

/-- Whether `needle` occurs somewhere inside `hay`. -/
def hasSubList (needle : List Char) : List Char → Bool
  | [] => needle.isEmpty
  | b :: bs => startsList needle (b :: bs) || hasSubList needle bs

/-- Python's substring test `needle in hay`. -/
def containsSub (hay needle : String) : Bool :=
  hasSubList needle.toList hay.toList

/-- Python's `str.lower()`.  Every string the embedded code lowers is ASCII,
where Python's Unicode lowering and per-character ASCII lowering agree. -/
def pyLower (s : String) : String :=
  ⟨s.data.map Char.toLower⟩

/-- One DOM element as seen by the field filler: its current value, and
whether `element.input_value()` raises when probed (the source guards the
probe with `safe_execute(..., default_return="")`). -/
structure Elem where
  value : String
  readFails : Bool
deriving DecidableEq, Repr

/-- The page capability consumed by the core (`application_flow_optimizer.py`).
`fatal` marks an exception escaping every per-probe guard inside
`detect_ats_system`, i.e. one that reaches the outer `except` at line 209;
`contentOk = none` means `page.content()` raises (absorbed by `safe_execute`);
`queryAll s = none` means `page.query_selector_all(s)` raises (absorbed by the
per-probe `try/except`), `some b` tells whether at least one element matched;
`resolve s` maps a selector to the index of the element
`page.query_selector(s)` returns (`none`: no element, or the call raised —
both make `_try_fill_field` move on to the next selector);
`elems` is the mutable store of element values. -/
structure Page where
  fatal : Bool
  contentOk : Option String
  queryAll : String → Option Bool
  resolve : String → Option Nat
  elems : List Elem

/-- Per-vendor detection patterns (`_load_ats_patterns`). -/
structure ATSPattern where
  url_patterns : List String
  dom_selectors : List String
  text_indicators : List String
  form_patterns : List String

/-- The static pattern catalog, in the source's declaration order
(`_load_ats_patterns`, lines 63-91). -/
def atsPatterns : List (String × ATSPattern) :=
  [ ("workday",
     { url_patterns := ["workday.com", "myworkday.com", "wd1.myworkdayjobs.com"]
       dom_selectors := ["[data-automation-id]", ".css-1hwfws3", ".workday"]
       text_indicators := ["workday", "powered by workday"]
       form_patterns := ["input[data-automation-id]"] }),
    ("greenhouse",
     { url_patterns := ["greenhouse.io", "boards.greenhouse.io"]
       dom_selectors := [".application-form", ".greenhouse-form"]
       text_indicators := ["greenhouse", "powered by greenhouse"]
       form_patterns := ["input[name*=\"application\"]"] }),
    ("lever",
     { url_patterns := ["lever.co", "jobs.lever.co"]
       dom_selectors := [".application-form", ".lever-form"]
       text_indicators := ["lever", "powered by lever"]
       form_patterns := ["input[name*=\"lever\"]"] }),
    ("bamboohr",
     { url_patterns := ["bamboohr.com", "bamboohr.co"]
       dom_selectors := [".bamboo-form", ".application-container"]
       text_indicators := ["bamboohr", "bamboo hr"]
       form_patterns := ["input[name*=\"bamboo\"]"] }) ]

/-- URL phase of `detect_ats_system` (lines 165-170): the first vendor in
declaration order one of whose URL substrings occurs in the lower-cased job
URL. -/
def urlDetect (job_url : String) : Option String :=
  (atsPatterns.find? fun vp =>
    vp.2.url_patterns.any fun pat => containsSub (pyLower job_url) pat).map (·.1)

/-- DOM-scoring accumulation for one vendor (lines 175-199), in tenths:
+3 per DOM selector whose `query_selector_all` returns at least one element
(a raising probe contributes nothing), +2 per text indicator found
case-insensitively in the page content, +2 per form-selector probe matching at
least one element. -/
def vendorScore (page : Page) (content : String) (p : ATSPattern) : Nat :=
  let c := p.dom_selectors.foldl
    (fun c s => if (page.queryAll s).getD false then c + 3 else c) 0
  let c := p.text_indicators.foldl
    (fun c t => if containsSub (pyLower content) (pyLower t) then c + 2 else c) c
  p.form_patterns.foldl
    (fun c s => if (page.queryAll s).getD false then c + 2 else c) c

/-- DOM phase of `detect_ats_system` (lines 175-207): walk the catalog in
declaration order, return the first vendor whose accumulated score reaches 6
tenths together with that score, else `("generic", 3)`. -/
def domDetectLoop (page : Page) (content : String) :
    List (String × ATSPattern) → String × Nat
  | [] => ("generic", 3)
  | vp :: rest =>
      let c := vendorScore page content vp.2
      if 6 ≤ c then (vp.1, c) else domDetectLoop page content rest

/-- Embedding of `detect_ats_system` (lines 152-211).  The whole body sits in a
`try/except` returning `("generic", 0.1)` if anything escapes the per-probe
guards (`fatal`); `page.content()` is read through `safe_execute` with default
`""`.  The `@with_retry(max_retries=2)` decorator (from the repository's
`enhanced_error_tolerance`, not under `src/`) only re-invokes the body on an
exception; since the body never raises, it is behaviourally the identity
here. -/
def detectAtsSystem (page : Page) (job_url : String) : String × Nat :=
  if page.fatal then ("generic", 1)
  else
    match urlDetect job_url with
    | some v => (v, 9)
    | none =>
        let content := page.contentOk.getD ""
        domDetectLoop page content atsPatterns

/-- Modelled from the spec: the DOM-scoring rule as section 4.1 word it —
"+0.3 per matching DOM selector that returns ≥1 element, +0.2 per text
indicator found (case-insensitive substring) in the full page content, +0.2
per form-selector probe that matches ≥1 element" — written as counts, to be
compared with the source-embedded `vendorScore`. -/
def specVendorScore (page : Page) (content : String) (p : ATSPattern) : Nat :=
  3 * p.dom_selectors.countP (fun s => (page.queryAll s).getD false)
  + 2 * p.text_indicators.countP (fun t => containsSub (pyLower content) (pyLower t))
  + 2 * p.form_patterns.countP (fun s => (page.queryAll s).getD false)

/-- The user profile dictionary as `_fill_form_fields` reads it: the four
keys it consults, each either present with a value (`some`) or absent
(`none`, making `profile.get(key, default)` return the default). -/
structure Profile where
  first_name : Option String
  last_name : Option String
  email : Option String
  phone : Option String

/-- The `profile_data` dict built at lines 392-397: absent `first_name` /
`last_name` / `phone` default to `""`, absent `email` defaults to the
hard-coded address `"Nirajan.tech@gmail.com"`. -/
def profileData (p : Profile) : List (String × String) :=
  [ ("first_name", p.first_name.getD ""),
    ("last_name", p.last_name.getD ""),
    ("email", p.email.getD "Nirajan.tech@gmail.com"),
    ("phone", p.phone.getD "") ]

/-- Embedding of `_try_fill_field` (lines 412-425): try each candidate selector in order;
for the first one resolving to an existing element, read its current value
through `safe_execute(..., default_return="")` — a raising read counts as
`""` — and, if that read is empty, write `value` into the element and stop.
An element that reads non-empty, a selector with no element, and a raising
`query_selector` all make the loop move to the next selector.  Returns
whether a fill happened, and the updated element store. -/
def tryFillField (resolve : String → Option Nat) (elems : List Elem) :
    List String → String → Bool × List Elem
  | [], _ => (false, elems)
  | s :: rest, value =>
      match resolve s with
      | none => tryFillField resolve elems rest value
      | some i =>
          match elems[i]? with
          | none => tryFillField resolve elems rest value
          | some e =>
              if (if e.readFails then "" else e.value) = "" then
                (true, elems.set i { e with value := value })
              else tryFillField resolve elems rest value

/-- One iteration of the `_fill_form_fields` loop body (lines 399-408): skip
mapping entries that are not `profile_data` keys and entries whose profile
value is empty; otherwise try to fill, recording the value under the field
name on success.  The accumulator carries the `filled_fields` dict and the
element store. -/
def fillStep (resolve : String → Option Nat) (p : Profile)
    (acc : List (String × String) × List Elem) (fm : String × List String) :
    List (String × String) × List Elem :=
  match (profileData p).lookup fm.1 with
  | none => acc
  | some value =>
      if value = "" then acc
      else
        match tryFillField resolve acc.2 fm.2 value with
        | (true, elems') => (acc.1 ++ [(fm.1, value)], elems')
        | (false, elems') => (acc.1, elems')

/-- Embedding of `_fill_form_fields` (lines 387-410): for each logical field of the
mapping that is one of the four `profile_data` keys and whose profile value
is non-empty, try to fill it; record the value under the field name when the
fill succeeded.  The element store is threaded through the fields in mapping
order. -/
def fillFormFields (resolve : String → Option Nat) (elems : List Elem)
    (p : Profile) (mappings : List (String × List String)) :
    List (String × String) × List Elem :=
  mappings.foldl (fillStep resolve p) ([], elems)

/-- Form-field mappings (`_load_form_mappings`, lines 93-121): only
`workday`, `greenhouse` and `generic` exist; the lever and bamboohr
strategies fall back to `generic` via `dict.get`. -/
def formFieldMappings : List (String × List (String × List String)) :=
  [ ("workday",
     [ ("first_name", ["input[data-automation-id*=\"firstName\"]", "input[name*=\"firstName\"]"]),
       ("last_name", ["input[data-automation-id*=\"lastName\"]", "input[name*=\"lastName\"]"]),
       ("email", ["input[data-automation-id*=\"email\"]", "input[type=\"email\"]"]),
       ("phone", ["input[data-automation-id*=\"phone\"]", "input[type=\"tel\"]"]),
       ("resume", ["input[data-automation-id*=\"resume\"]", "input[type=\"file\"]"]),
       ("cover_letter", ["input[data-automation-id*=\"coverLetter\"]"]) ]),
    ("greenhouse",
     [ ("first_name", ["input[name*=\"first_name\"]", "#first_name"]),
       ("last_name", ["input[name*=\"last_name\"]", "#last_name"]),
       ("email", ["input[name*=\"email\"]", "#email"]),
       ("phone", ["input[name*=\"phone\"]", "#phone"]),
       ("resume", ["input[name*=\"resume\"]", "input[type=\"file\"]"]),
       ("cover_letter", ["input[name*=\"cover_letter\"]"]) ]),
    ("generic",
     [ ("first_name", ["input[name*=\"first\"]", "#firstName", "#first_name"]),
       ("last_name", ["input[name*=\"last\"]", "#lastName", "#last_name"]),
       ("email", ["input[type=\"email\"]", "#email", "input[name*=\"email\"]"]),
       ("phone", ["input[type=\"tel\"]", "#phone", "input[name*=\"phone\"]"]),
       ("resume", ["input[type=\"file\"]", "input[name*=\"resume\"]"]),
       ("cover_letter", ["input[name*=\"cover\"]", "input[name*=\"letter\"]"]) ]) ]

/-- The `generic` field mapping, used by the generic strategy and as the
prefill-rate denominator in the metrics update. -/
def genericMapping : List (String × List String) :=
  (formFieldMappings.lookup "generic").getD []

/-- The application-result dictionary.  Python result dicts carry varying
key sets and are read back with `dict.get` defaults (`status` → `"unknown"`
never arises here because every constructor sets it; `application_duration`
→ 0, `ats_confidence` → 0, `fields_filled` → `{}`, `error` absent); the
structure's fields carry exactly those defaults where a key is absent. -/
structure RDict where
  status : String
  strategy : String
  error : Option String
  fields_filled : List (String × String)
  confidence : Nat
  application_duration : ℚ
  ats_system : String
  ats_confidence : Nat
deriving DecidableEq, Repr

/-- Result dict as built by a strategy (only `status`/`strategy`/
`fields_filled` or `error`/`confidence` keys); dispatcher-level keys start
at their `dict.get` defaults. -/
def strategyResult (status strategy : String) (fields : List (String × String))
    (error : Option String) (confidence : Nat) : RDict :=
  { status := status, strategy := strategy, error := error
    fields_filled := fields, confidence := confidence
    application_duration := 0, ats_system := "", ats_confidence := 0 }

/-- Embedding of `_handle_workday_specifics` (lines 427-451): probes a fixed list of
next/continue buttons, clicks the first visible one and waits.  Clicking and
waiting are external browser effects with no observable footprint in this
state model (element values are not changed), and every probe and the whole
body are wrapped in `try/except`, so the call cannot raise; it is modelled
as a no-op. -/
def handleWorkdaySpecifics (_page : Page) (_p : Profile) : Unit := ()

/-- Embedding of `_apply_workday_strategy` (lines 264-289).  The body fills the workday
mapping, runs the workday-specific post-fill steps, and returns an
`applied` result; every operation the body performs is internally guarded,
so the strategy's own `except` branch (returning a `failed` result with the
error text) is unreachable and the strategy is a total function. -/
def applyWorkdayStrategy (_job : Option String) (p : Profile) (page : Page)
    (confidence : Nat) : RDict :=
  let filled := (fillFormFields page.resolve page.elems p
    ((formFieldMappings.lookup "workday").getD [])).1
  let _ := handleWorkdaySpecifics page p
  strategyResult "applied" "workday" filled none confidence

/-- Embedding of `_apply_greenhouse_strategy` (lines 291-313); total for the same reason
as the workday strategy. -/
def applyGreenhouseStrategy (_job : Option String) (p : Profile) (page : Page)
    (confidence : Nat) : RDict :=
  let filled := (fillFormFields page.resolve page.elems p
    ((formFieldMappings.lookup "greenhouse").getD [])).1
  strategyResult "applied" "greenhouse" filled none confidence

/-- Embedding of `_apply_lever_strategy` (lines 315-337): `form_field_mappings` has no
`lever` entry, so `dict.get` falls back to the generic mapping. -/
def applyLeverStrategy (_job : Option String) (p : Profile) (page : Page)
    (confidence : Nat) : RDict :=
  let filled := (fillFormFields page.resolve page.elems p
    ((formFieldMappings.lookup "lever").getD genericMapping)).1
  strategyResult "applied" "lever" filled none confidence

/-- Embedding of `_apply_bamboohr_strategy` (lines 339-361): no `bamboohr` entry either,
so the generic mapping is used. -/
def applyBamboohrStrategy (_job : Option String) (p : Profile) (page : Page)
    (confidence : Nat) : RDict :=
  let filled := (fillFormFields page.resolve page.elems p
    ((formFieldMappings.lookup "bamboohr").getD genericMapping)).1
  strategyResult "applied" "bamboohr" filled none confidence

/-- Embedding of `_apply_generic_strategy` (lines 363-385). -/
def applyGenericStrategy (_job : Option String) (p : Profile) (page : Page)
    (confidence : Nat) : RDict :=
  let filled := (fillFormFields page.resolve page.elems p genericMapping).1
  strategyResult "applied" "generic" filled none confidence

/-- The strategy table (`self.strategies`, lines 55-61) combined with the
dispatcher's lookup `self.strategies.get(ats_system, strategies['generic'])`:
unknown vendors fall back to the generic strategy. -/
def strategyFor (ats : String) :
    Option String → Profile → Page → Nat → RDict :=
  if ats = "workday" then applyWorkdayStrategy
  else if ats = "greenhouse" then applyGreenhouseStrategy
  else if ats = "lever" then applyLeverStrategy
  else if ats = "bamboohr" then applyBamboohrStrategy
  else applyGenericStrategy

/-- Embedding of `ApplicationMetrics` (lines 21-30).  Counters are exact; the running
averages are modelled over `ℚ` (the source uses floats; no claim under
verification depends on their rounded values).  `ats_detection_accuracy`
averages raw confidences, kept here in tenths. -/
structure ApplicationMetrics where
  total_attempts : Nat
  successful_applications : Nat
  failed_applications : Nat
  manual_reviews_required : Nat
  average_application_time : ℚ
  ats_detection_accuracy : ℚ
  form_prefill_success_rate : ℚ
deriving DecidableEq, Repr

/-- Fresh metrics, as the dataclass defaults construct them. -/
def initMetrics : ApplicationMetrics :=
  { total_attempts := 0, successful_applications := 0
    failed_applications := 0, manual_reviews_required := 0
    average_application_time := 0, ats_detection_accuracy := 0
    form_prefill_success_rate := 0 }

/-- Embedding of `_update_application_metrics` (lines 453-482): always increment
`total_attempts`; increment exactly the bucket matching the status, and no
bucket for any other status; fold duration, confidence and prefill rate into
the running averages when non-zero / non-empty. -/
def updateApplicationMetrics (m : ApplicationMetrics) (r : RDict) :
    ApplicationMetrics :=
  let m := { m with total_attempts := m.total_attempts + 1 }
  let m :=
    if r.status = "applied" then
      { m with successful_applications := m.successful_applications + 1 }
    else if r.status = "failed" then
      { m with failed_applications := m.failed_applications + 1 }
    else if r.status = "manual_review" then
      { m with manual_reviews_required := m.manual_reviews_required + 1 }
    else m
  let m :=
    if 0 < r.application_duration then
      { m with average_application_time :=
          (m.average_application_time * ((m.total_attempts : ℚ) - 1)
            + r.application_duration) / (m.total_attempts : ℚ) }
    else m
  let m :=
    if 0 < r.ats_confidence then
      { m with ats_detection_accuracy :=
          (m.ats_detection_accuracy * ((m.total_attempts : ℚ) - 1)
            + (r.ats_confidence : ℚ) / 10) / (m.total_attempts : ℚ) }
    else m
  if r.fields_filled ≠ [] then
    { m with form_prefill_success_rate :=
        (m.form_prefill_success_rate * ((m.total_attempts : ℚ) - 1)
          + (r.fields_filled.length : ℚ) / (max genericMapping.length 1 : ℚ))
          / (m.total_attempts : ℚ) }
  else m

/-- Embedding of `optimize_application_flow` (lines 213-262), parametrised by the
strategy table so that the dispatcher's `try/except` boundary is visible: a
table entry returning `Except.error e` stands for a strategy raising `e`.
On a normal strategy return the dispatcher decorates the result with
duration and detection data, passes it through
`_update_application_metrics`, and returns it; on a strategy exception it
returns a `failed` result carrying the error text — without touching the
metrics (lines 254-262).  The wall-clock `duration` is an external input.
The function itself is total: the dispatcher never raises. -/
def optimizeApplicationFlowWith
    (table : String → Option String → Profile → Page → Nat → Except String RDict)
    (duration : ℚ) (m : ApplicationMetrics) (jobUrl : Option String)
    (p : Profile) (page : Page) : RDict × ApplicationMetrics :=
  let det := detectAtsSystem page (jobUrl.getD "")
  match table det.1 jobUrl p page det.2 with
  | .ok r =>
      let r := { r with application_duration := duration
                        ats_system := det.1, ats_confidence := det.2 }
      (r, updateApplicationMetrics m r)
  | .error e =>
      ({ status := "failed", strategy := "", error := some e
         fields_filled := [], confidence := 0
         application_duration := duration
         ats_system := det.1, ats_confidence := det.2 }, m)

/-- Embedding of `optimize_application_flow` with the concrete strategy table of the
optimizer; every concrete strategy is total, so the table always returns
`Except.ok`.  The surrounding `@with_retry(max_retries=1)` re-invokes only
on an exception and is therefore the identity. -/
def optimizeApplicationFlow (duration : ℚ) (m : ApplicationMetrics)
    (jobUrl : Option String) (p : Profile) (page : Page) :
    RDict × ApplicationMetrics :=
  optimizeApplicationFlowWith
    (fun ats job p page conf => .ok (strategyFor ats job p page conf))
    duration m jobUrl p page

/-- A sequence of `optimize_application_flow` calls against one metrics
object, each call with its own job URL, profile, page and duration. -/
def runApplications (inputs : List (Option String × Profile × Page × ℚ))
    (m : ApplicationMetrics) : ApplicationMetrics :=
  inputs.foldl
    (fun m inp => (optimizeApplicationFlow inp.2.2.2 m inp.1 inp.2.1 inp.2.2.1).2)
    m

/-! Batch runner (`src/src/ats/csv_applicator.py`). -/

/-- Python's `str.strip()` restricted to ASCII whitespace, which is all the
embedded inputs contain. -/
def pyStrip (s : String) : String :=
  ⟨((s.data.dropWhile Char.isWhitespace).reverse.dropWhile
      Char.isWhitespace).reverse⟩

/-- One job row as `read_csv_jobs` builds it (lines 158-165). -/
structure CsvJob where
  url : String
  title : String
  company : String
  location : String
  summary : String
  site : String
deriving DecidableEq, Repr

/-- A parsed CSV file as `csv.DictReader` presents it: the header's field
names, and each data row as a field-to-string dictionary over the columns
present in that row. -/
structure CsvFile where
  fieldnames : List String
  rows : List (List (String × String))

/-- Embedding of `read_csv_jobs` (lines 127-177): require a `url` column (else return no
jobs); a row whose stripped `url` is empty is skipped with a console warning
and no error; every other row becomes a job with defaulted, stripped
fields and `site = "CSV Import"`. -/
def readCsvJobs (f : CsvFile) : List CsvJob :=
  if f.fieldnames.contains "url" then
    f.rows.filterMap fun row =>
      let url := pyStrip ((row.lookup "url").getD "")
      if url = "" then none
      else some
        { url := url
          title := pyStrip ((row.lookup "title").getD "Unknown Position")
          company := pyStrip ((row.lookup "company").getD "Unknown Company")
          location := pyStrip ((row.lookup "location").getD "Unknown Location")
          summary := pyStrip ((row.lookup "summary").getD "")
          site := "CSV Import" }
  else []

/-- The `stats` dictionary of `apply_to_jobs` (line 238). -/
structure BatchStats where
  applied : Nat
  failed : Nat
  manual : Nat
  total : Nat
  retried : Nat
  skipped : Nat
deriving DecidableEq, Repr

/-- The externally determined outcome of one attempt of the per-job retry
loop.  `docCv` is the resume path `_generate_documents_with_fallback`
returns (it catches every exception and signals failure with `""`);
`submitterOk` is whether `_get_submitter_with_fallback` produced a submitter
(it too absorbs all exceptions, returning `None` on total failure);
`status` is the string `_submit_application_with_timeout` returns (always a
string — exceptions and timeouts become `"Failed: ..."` / `"Timeout"`);
`markDoneRaises` is whether the mark-as-done block at lines 334-337
(`utils.hash_job`, `self.session`, `self.save_session()` — all repository
code outside `src/`) raises.  `_detect_ats_with_fallback` always returns a
string, touches no statistics, and only feeds the submitter choice, so its
value is folded into the oracle. -/
structure BatchAttempt where
  docCv : String
  submitterOk : Bool
  status : String
  markDoneRaises : Bool

/-- Line 315: `status and ("Applied" in status or "Success" in status)`. -/
def statusIsApplied (s : String) : Bool :=
  !(s == "") && (containsSub s "Applied" || containsSub s "Success")

/-- Line 318: `status and ("Manual" in status or "Review" in status)`. -/
def statusIsManual (s : String) : Bool :=
  !(s == "") && (containsSub s "Manual" || containsSub s "Review")

/-- One run of the per-job `while retry_count <= max_retries and not
application_successful` loop of `apply_to_jobs` (lines 279-354), with
`max_retries = 2`, structured on fuel.  `retry_count` strictly increases on
every continued iteration, so from `retry_count = 0` the body is entered at
most three times: fuel 3 is exact, and the fuel-0 base case coincides with
the loop guard being false.  Branches, in source order:
- iteration entry with `retry_count > 0` increments `retried` (line 287);
- empty resume path: `break` with no bucket touched (lines 294-296);
- no submitter: `break` with no bucket touched (lines 305-307);
- applied-like status: `applied` bucket, then the mark-as-done block; if
  that block raises, the `except` (line 341) bumps `retry_count` and only
  when it passes `max_retries` (i.e. the success happened on the last
  attempt) also increments `failed` — otherwise the loop simply exits
  because `application_successful` is set;
- manual-like status: same shape with the `manual` bucket;
- any other status: `failed` bucket only once `retry_count` has reached
  `max_retries`, then `retry_count += 1` (line 354) and the next
  iteration. -/
def applyJobLoopGo (env : Nat → BatchAttempt) :
    Nat → Nat → BatchStats → BatchStats
  | 0, _, stats => stats
  | fuel + 1, rc, stats =>
      if rc ≤ 2 then
        let stats :=
          if 0 < rc then { stats with retried := stats.retried + 1 } else stats
        let a := env rc
        if a.docCv = "" then stats
        else if a.submitterOk = false then stats
        else if statusIsApplied a.status then
          let stats := { stats with applied := stats.applied + 1 }
          if a.markDoneRaises then
            if 2 < rc + 1 then { stats with failed := stats.failed + 1 }
            else stats
          else stats
        else if statusIsManual a.status then
          let stats := { stats with manual := stats.manual + 1 }
          if a.markDoneRaises then
            if 2 < rc + 1 then { stats with failed := stats.failed + 1 }
            else stats
          else stats
        else
          let stats :=
            if 2 ≤ rc then { stats with failed := stats.failed + 1 } else stats
          applyJobLoopGo env fuel (rc + 1) stats
      else stats

/-- The per-job retry loop entered at `retry_count = 0`. -/
def applyJobLoop (env : Nat → BatchAttempt) (stats : BatchStats) : BatchStats :=
  applyJobLoopGo env 3 0 stats

/-- Embedding of `apply_to_jobs` (lines 222-370): empty job lists short-circuit to
all-zero statistics; otherwise `total` is fixed to the number of jobs up
front, each job with a falsy `url` adds one `skipped`, and every other job
runs the retry loop.  `env i` is the attempt oracle of the i-th job.
Inter-job delays, progress display, logging and the browser context are
external effects with no bearing on the statistics. -/
def applyToJobs (env : Nat → Nat → BatchAttempt) (jobs : List CsvJob) :
    BatchStats :=
  if jobs.isEmpty then
    { applied := 0, failed := 0, manual := 0, total := 0, retried := 0
      skipped := 0 }
  else
    jobs.enum.foldl
      (fun stats ij =>
        if ij.2.url = "" then { stats with skipped := stats.skipped + 1 }
        else applyJobLoop (env ij.1) stats)
      { applied := 0, failed := 0, manual := 0, total := jobs.length
        retried := 0, skipped := 0 }

/-! Helper lemmas. -/

/-- Folding an `if`-guarded accumulator counts the matching entries. -/
theorem foldl_if_add_count {α : Type} (q : α → Bool) (k : Nat) :
    ∀ (l : List α) (c : Nat),
      l.foldl (fun c s => if q s then c + k else c) c = c + k * l.countP q := by
  intro l
  induction l with
  | nil => simp
  | cons a t ih =>
      intro c
      by_cases h : q a = true
      · simp only [List.foldl_cons, List.countP_cons, h, if_true, if_pos]
        rw [ih]
        ring
      · simp only [List.foldl_cons, List.countP_cons, h, if_neg, Bool.false_eq_true,
          not_false_iff, if_false]
        rw [ih]
        ring

/-- The source's accumulation loop computes exactly the spec's weighted
counts. -/
theorem vendorScore_eq_spec (page : Page) (content : String) (p : ATSPattern) :
    vendorScore page content p = specVendorScore page content p := by
  unfold vendorScore specVendorScore
  rw [foldl_if_add_count, foldl_if_add_count, foldl_if_add_count]
  ring

/-- The spec score is bounded by full credit for every probe. -/
theorem specVendorScore_le (page : Page) (content : String) (p : ATSPattern) :
    specVendorScore page content p ≤
      3 * p.dom_selectors.length + 2 * p.text_indicators.length
        + 2 * p.form_patterns.length := by
  unfold specVendorScore
  have h1 := List.countP_le_length (l := p.dom_selectors)
    (p := fun s => (page.queryAll s).getD false)
  have h2 := List.countP_le_length (l := p.text_indicators)
    (p := fun t => containsSub (pyLower content) (pyLower t))
  have h3 := List.countP_le_length (l := p.form_patterns)
    (p := fun s => (page.queryAll s).getD false)
  omega

/-- Each catalog vendor can accumulate at most 15 tenths (workday's maximum:
three DOM selectors, two text indicators, one form probe). -/
theorem vendorScore_le_15 (page : Page) (content : String) :
    ∀ vp ∈ atsPatterns, vendorScore page content vp.2 ≤ 15 := by
  intro vp hvp
  rw [vendorScore_eq_spec]
  fin_cases hvp <;>
    exact le_trans (specVendorScore_le page content _) (by norm_num)

/-- The DOM loop agrees with "first vendor whose spec score reaches the
threshold, else generic". -/
theorem domDetectLoop_eq_find (page : Page) (content : String) :
    ∀ l : List (String × ATSPattern),
      domDetectLoop page content l =
        match l.find? (fun vp => 6 ≤ specVendorScore page content vp.2) with
        | some vp => (vp.1, specVendorScore page content vp.2)
        | none => ("generic", 3) := by
  intro l
  induction l with
  | nil => rfl
  | cons vp rest ih =>
      by_cases h : 6 ≤ specVendorScore page content vp.2 <;>
        simp [domDetectLoop, List.find?, h, vendorScore_eq_spec, ih]

/-- The DOM loop's confidence is bounded by the per-vendor bound. -/
theorem domDetectLoop_snd_le (page : Page) (content : String) :
    ∀ l : List (String × ATSPattern),
      (∀ vp ∈ l, vendorScore page content vp.2 ≤ 15) →
      (domDetectLoop page content l).2 ≤ 15 := by
  intro l
  induction l with
  | nil => intro _; simp [domDetectLoop]
  | cons vp rest ih =>
      intro h
      by_cases h6 : 6 ≤ vendorScore page content vp.2 <;>
        simp [domDetectLoop, h6]
      · exact h vp (by simp)
      · exact ih fun x hx => h x (by simp [hx])

/-- The per-job retry loop never touches the `total` and `skipped`
counters. -/
theorem applyJobLoopGo_total_skipped (env : Nat → BatchAttempt) :
    ∀ (fuel rc : Nat) (s : BatchStats),
      (applyJobLoopGo env fuel rc s).total = s.total ∧
      (applyJobLoopGo env fuel rc s).skipped = s.skipped := by
  intro fuel
  induction fuel with
  | zero => intro rc s; exact ⟨rfl, rfl⟩
  | succ n ih =>
      intro rc s
      unfold applyJobLoopGo
      dsimp only
      split_ifs <;> first
        | exact ⟨rfl, rfl⟩
        | · constructor
            · rw [(ih _ _).1]
            · rw [(ih _ _).2]

/-- The metrics updater always increments `total_attempts` by one, and
increments the bucket matching the status — and no bucket at all for a
status outside the three recognised ones. -/
theorem updateApplicationMetrics_counters (m : ApplicationMetrics) (r : RDict) :
    (updateApplicationMetrics m r).total_attempts = m.total_attempts + 1 ∧
    (updateApplicationMetrics m r).successful_applications =
      m.successful_applications + (if r.status = "applied" then 1 else 0) ∧
    (updateApplicationMetrics m r).failed_applications =
      m.failed_applications +
        (if r.status ≠ "applied" ∧ r.status = "failed" then 1 else 0) ∧
    (updateApplicationMetrics m r).manual_reviews_required =
      m.manual_reviews_required +
        (if r.status ≠ "applied" ∧ r.status ≠ "failed" ∧
            r.status = "manual_review" then 1 else 0) := by
  unfold updateApplicationMetrics
  dsimp only
  split_ifs <;> simp_all

/-- The DOM loop falls through to the generic default when no vendor reaches
the threshold. -/
theorem domDetectLoop_all_below (page : Page) (content : String) :
    ∀ l : List (String × ATSPattern),
      (∀ vp ∈ l, vendorScore page content vp.2 < 6) →
      domDetectLoop page content l = ("generic", 3) := by
  intro l
  induction l with
  | nil => intro _; rfl
  | cons vp rest ih =>
      intro h
      have h6 : ¬ 6 ≤ vendorScore page content vp.2 :=
        Nat.not_le.2 (h vp (by simp))
      simp only [domDetectLoop, h6, if_false]
      exact ih fun x hx => h x (by simp [hx])

/-- Folding the metrics updater over results with recognised statuses
preserves the attempts-equal-sum-of-buckets equation. -/
theorem metrics_fold_invariant :
    ∀ (l : List RDict) (m : ApplicationMetrics),
      (∀ r ∈ l, r.status = "applied" ∨ r.status = "failed" ∨
        r.status = "manual_review") →
      m.total_attempts = m.successful_applications + m.failed_applications
        + m.manual_reviews_required →
      (l.foldl updateApplicationMetrics m).total_attempts =
        (l.foldl updateApplicationMetrics m).successful_applications
        + (l.foldl updateApplicationMetrics m).failed_applications
        + (l.foldl updateApplicationMetrics m).manual_reviews_required := by
  intro l
  induction l with
  | nil => intro m _ hm; simpa using hm
  | cons r t ih =>
      intro m h hm
      simp only [List.foldl_cons]
      apply ih _ fun x hx => h x (List.mem_cons_of_mem _ hx)
      obtain ⟨h1, h2, h3, h4⟩ :=
        updateApplicationMetrics_counters m r
      rcases h r (List.mem_cons_self r t) with hs | hs | hs <;>
        rw [hs] at h2 h3 h4 <;> simp at h2 h3 h4 <;> omega

/-! Concrete fixtures used by the witnesses and counterexamples. -/

/-- A page on which every probe raises. -/
def nullPage : Page := ⟨false, none, fun _ => none, fun _ => none, []⟩

/-- A page whose detection body fails outright. -/
def fatalPage : Page := ⟨true, none, fun _ => none, fun _ => none, []⟩

/-- A page on which every selector matches and whose content advertises
Workday. -/
def allWorkdayPage : Page :=
  ⟨false, some "Powered by Workday", fun _ => some true, fun _ => none, []⟩

/-- A profile dictionary with none of the four keys present. -/
def emptyProfile : Profile := ⟨none, none, none, none⟩

/-- Results with the three recognised statuses, one each. -/
def c1Results : List RDict :=
  [ strategyResult "applied" "generic" [] none 0,
    strategyResult "failed" "generic" [] none 0,
    strategyResult "manual_review" "generic" [] none 0 ]

/-! Claim theorems. -/

/-- C1, counterexample: a result whose status is `"timeout"` (a status the
spec's own `ApplicationResult` enumeration contains) increments
`total_attempts` but no outcome bucket, so after one such `record()` call
the claimed invariant `total == successful + failed + manual` is already
false. -/
theorem C1_counterexample :
    (updateApplicationMetrics initMetrics
        (strategyResult "timeout" "generic" [] none 0)).total_attempts = 1 ∧
    (updateApplicationMetrics initMetrics
        (strategyResult "timeout" "generic" [] none 0)).successful_applications
      + (updateApplicationMetrics initMetrics
          (strategyResult "timeout" "generic" [] none 0)).failed_applications
      + (updateApplicationMetrics initMetrics
          (strategyResult "timeout" "generic" [] none 0)).manual_reviews_required
      = 0 := by
  refine ⟨rfl, rfl⟩

/-- C1 (amended): for every sequence of results each of whose statuses is
`applied`, `failed` or `manual_review`, the invariant `total_attempts ==
successful_applications + failed_applications + manual_reviews_required`
holds after every call to the metrics updater — each such call increments
exactly one outcome bucket in addition to `total_attempts`.  A result with
any other status (such as `timeout`) increments only `total_attempts` and
breaks the equation. -/
theorem C1_metrics_invariant (results : List RDict) (n : Nat)
    (h : ∀ r ∈ results, r.status = "applied" ∨ r.status = "failed" ∨
      r.status = "manual_review") :
    ((results.take n).foldl updateApplicationMetrics initMetrics).total_attempts =
      ((results.take n).foldl updateApplicationMetrics
        initMetrics).successful_applications
      + ((results.take n).foldl updateApplicationMetrics
          initMetrics).failed_applications
      + ((results.take n).foldl updateApplicationMetrics
          initMetrics).manual_reviews_required :=
  metrics_fold_invariant _ _
    (fun r hr => h r (List.take_subset n results hr)) rfl

/-- C1, witness: the invariant after recording one applied, one failed and
one manual-review result. -/
theorem C1_witness :
    (∀ r ∈ c1Results, r.status = "applied" ∨ r.status = "failed" ∨
      r.status = "manual_review") ∧
    ((c1Results.take 3).foldl updateApplicationMetrics initMetrics).total_attempts =
      ((c1Results.take 3).foldl updateApplicationMetrics
        initMetrics).successful_applications
      + ((c1Results.take 3).foldl updateApplicationMetrics
          initMetrics).failed_applications
      + ((c1Results.take 3).foldl updateApplicationMetrics
          initMetrics).manual_reviews_required :=
  ⟨by decide, C1_metrics_invariant c1Results 3 (by decide)⟩

/-- C2, counterexample: on a page where every workday probe matches, the
DOM-scoring phase accumulates 0.3+0.3+0.3+0.2+0.2+0.2 = 1.5 and returns it
as the confidence — detection does return a pair without raising, but the
returned confidence exceeds 1 (10 tenths), refuting the claimed bound
`confidence ≤ 1`. -/
theorem C2_counterexample :
    detectAtsSystem allWorkdayPage "https://example.com/x" = ("workday", 15) ∧
    10 < (detectAtsSystem allWorkdayPage "https://example.com/x").2 := by
  refine ⟨by decide, by decide⟩

/-- C2 (amended): detection is a total function — for every page and URL,
including pages whose probes all raise, it returns a (vendor, confidence)
pair with 0 ≤ confidence ≤ 1.5 (15 tenths, the largest accumulable score;
the claimed upper bound 1 is exceeded on DOM-heavy pages); a total detector
failure returns `("generic", 0.1)`, and when the URL matches nothing and no
vendor reaches the 0.6 threshold it returns `("generic", 0.3)`. -/
theorem C2_detect_bounds (page : Page) (url : String) :
    (detectAtsSystem page url).2 ≤ 15 ∧
    (page.fatal = true → detectAtsSystem page url = ("generic", 1)) ∧
    (page.fatal = false → urlDetect url = none →
      (∀ vp ∈ atsPatterns,
        vendorScore page (page.contentOk.getD "") vp.2 < 6) →
      detectAtsSystem page url = ("generic", 3)) := by
  refine ⟨?_, ?_, ?_⟩
  · unfold detectAtsSystem
    split_ifs with hf
    · norm_num
    · dsimp only
      split
      · norm_num
      · exact domDetectLoop_snd_le page _ _ (vendorScore_le_15 page _)
  · intro h
    simp [detectAtsSystem, h]
  · intro hf hu hscore
    simp only [detectAtsSystem, hf, Bool.false_eq_true, if_false, hu]
    exact domDetectLoop_all_below page _ _ hscore

/-- C2, witness: the failure and default clauses at concrete inputs — a
fatally failing page yields `("generic", 0.1)`, and a page with no matching
probe and a URL matching no vendor yields `("generic", 0.3)`. -/
theorem C2_witness :
    detectAtsSystem fatalPage "https://boards.greenhouse.io/acme/123"
      = ("generic", 1) ∧
    detectAtsSystem nullPage "https://example.com/x" = ("generic", 3) :=
  ⟨(C2_detect_bounds fatalPage _).2.1 rfl,
   (C2_detect_bounds nullPage _).2.2 rfl (by decide) (by decide)⟩

/-- A URL carrying the URL substrings of two different vendors: workday's
`workday.com` (inside `myworkday.com`) and greenhouse's `greenhouse.io`. -/
def c5Url : String := "https://x.myworkday.com/p?src=boards.greenhouse.io/acme/123"

/-- C5, counterexample: `c5Url` contains greenhouse's URL substring
`greenhouse.io`, yet detection returns `("workday", 0.9)` because workday
precedes greenhouse in the catalog — so "for every vendor whose substring
appears, that vendor is returned" fails for greenhouse at this URL. -/
theorem C5_counterexample :
    containsSub (pyLower c5Url) "greenhouse.io" = true ∧
    detectAtsSystem nullPage c5Url = ("workday", 9) := by
  refine ⟨by decide, by decide⟩

/-- C5 (amended): whenever the URL phase finds a vendor — i.e. for the first
vendor in catalog declaration order one of whose URL substrings occurs in
the lower-cased job URL — detection returns that vendor with confidence
exactly 0.9 immediately, regardless of DOM content (no DOM, text or form
probe is consulted: the page only enters through its `fatal` flag).  When
exactly one vendor's substrings occur, as in the greenhouse scenario, that
vendor is returned. -/
theorem C5_url_match_first (page : Page) (url v : String)
    (hf : page.fatal = false) (hu : urlDetect url = some v) :
    detectAtsSystem page url = (v, 9) := by
  simp [detectAtsSystem, hf, hu]

/-- C5, witness: the spec's scenario URL on a page whose DOM screams
workday everywhere — the URL phase still returns `("greenhouse", 0.9)`. -/
theorem C5_witness :
    detectAtsSystem allWorkdayPage "https://boards.greenhouse.io/acme/123"
      = ("greenhouse", 9) :=
  C5_url_match_first allWorkdayPage _ _ rfl (by decide)

/-- C6: in the DOM-scoring fallback (URL phase found nothing, no fatal
failure), confidence accumulates per vendor as +0.3 per DOM selector
matching at least one element, +0.2 per text indicator found
case-insensitively in the page content and +0.2 per matching form-selector
probe, and the result is the first vendor in table-declaration order whose
accumulated confidence reaches 0.6, returned immediately with that
confidence — not the globally highest-scoring vendor — with
`("generic", 0.3)` when no vendor reaches the threshold. -/
theorem C6_dom_scoring (page : Page) (url : String)
    (hf : page.fatal = false) (hu : urlDetect url = none) :
    detectAtsSystem page url =
      match atsPatterns.find?
          (fun vp => 6 ≤ specVendorScore page (page.contentOk.getD "") vp.2) with
      | some vp => (vp.1, specVendorScore page (page.contentOk.getD "") vp.2)
      | none => ("generic", 3) := by
  simp only [detectAtsSystem, hf, Bool.false_eq_true, if_false, hu]
  exact domDetectLoop_eq_find page _ atsPatterns

/-- A page on which every selector matches and whose content advertises
Greenhouse: workday accumulates 1.1 (crossing the threshold first) while
greenhouse accumulates 1.2 (the global maximum). -/
def ghContentPage : Page :=
  ⟨false, some "powered by greenhouse", fun _ => some true, fun _ => none, []⟩

/-- C6, witness: on `ghContentPage`, detection returns workday with its
accumulated 1.1 although greenhouse (catalog index 1) scores 1.2 — the
first vendor crossing the threshold wins, not the global maximum. -/
theorem C6_witness :
    detectAtsSystem ghContentPage "https://example.com/x" = ("workday", 11) ∧
    ((atsPatterns.get? 1).map fun vp =>
      specVendorScore ghContentPage (ghContentPage.contentOk.getD "") vp.2)
      = some 12 := by
  refine ⟨?_, by decide⟩
  rw [C6_dom_scoring ghContentPage _ rfl (by decide)]
  decide

/-- C7, counterexample: an element whose current value is the non-empty
string `"X"` but whose value probe raises is treated as empty (the source
reads it through `safe_execute(..., default_return="")`) and is overwritten
with the fill value — refuting "never writes into an element whose current
value is non-empty". -/
theorem C7_counterexample :
    (Elem.mk "X" true).value ≠ "" ∧
    tryFillField (fun _ => some 0) [Elem.mk "X" true] ["#f"] "Y"
      = (true, [Elem.mk "Y" true]) := by
  refine ⟨by decide, by decide⟩

/-- C7 (amended): the field filler never writes into an element whose
current value reads back non-empty: an element whose value probe succeeds
and returns a non-empty string is left untouched by `_try_fill_field` — and
hence by a whole `_fill_form_fields` pass — so re-running the filler only
completes fields that read empty.  (An element whose value probe raises is
treated as empty and may be overwritten.) -/
theorem C7_no_overwrite_readable :
    (∀ (resolve : String → Option Nat) (elems : List Elem)
        (selectors : List String) (value : String) (i : Nat) (e : Elem),
        elems[i]? = some e → e.readFails = false → e.value ≠ "" →
        ((tryFillField resolve elems selectors value).2)[i]? = some e) ∧
    (∀ (resolve : String → Option Nat) (elems : List Elem) (p : Profile)
        (mappings : List (String × List String)) (i : Nat) (e : Elem),
        elems[i]? = some e → e.readFails = false → e.value ≠ "" →
        ((fillFormFields resolve elems p mappings).2)[i]? = some e) := by
  have part1 : ∀ (resolve : String → Option Nat) (elems : List Elem)
      (selectors : List String) (value : String) (i : Nat) (e : Elem),
      elems[i]? = some e → e.readFails = false → e.value ≠ "" →
      ((tryFillField resolve elems selectors value).2)[i]? = some e := by
    intro resolve elems selectors
    induction selectors with
    | nil => intro value i e he _ _; simpa [tryFillField] using he
    | cons s rest ih =>
        intro value i e he hrf hv
        cases hr : resolve s with
        | none =>
            simp only [tryFillField, hr]
            exact ih value i e he hrf hv
        | some j =>
            cases hej : elems[j]? with
            | none =>
                simp only [tryFillField, hr, hej]
                exact ih value i e he hrf hv
            | some f =>
                by_cases hread : (if f.readFails then "" else f.value) = ""
                · simp only [tryFillField, hr, hej, hread, if_pos]
                  have hij : j ≠ i := by
                    rintro rfl
                    rw [he] at hej
                    cases hej
                    rw [hrf] at hread
                    simp at hread
                    exact hv hread
                  rw [List.getElem?_set_ne hij]
                  exact he
                · simp only [tryFillField, hr, hej, hread, if_neg]
                  exact ih value i e he hrf hv
  refine ⟨part1, ?_⟩
  intro resolve elems p mappings i e he hrf hv
  unfold fillFormFields
  have key : ∀ (l : List (String × List String))
      (acc : List (String × String) × List Elem), acc.2[i]? = some e →
      ((l.foldl (fillStep resolve p) acc).2)[i]? = some e := by
    intro l
    induction l with
    | nil => intro acc h; exact h
    | cons fm rest ihl =>
        intro acc h
        simp only [List.foldl_cons]
        apply ihl
        unfold fillStep
        cases (profileData p).lookup fm.1 with
        | none => exact h
        | some value =>
            dsimp only
            split_ifs with hval
            · exact h
            · cases htf : tryFillField resolve acc.2 fm.2 value with
              | mk ok elems' =>
                  have := part1 resolve acc.2 fm.2 value i e h hrf hv
                  rw [htf] at this
                  cases ok <;> simpa using this
  exact key mappings ([], elems) he

/-- C7, witness: a readable, non-empty element survives both one
`_try_fill_field` call and a whole `_fill_form_fields` pass. -/
theorem C7_witness :
    ([Elem.mk "A" false])[0]? = some (Elem.mk "A" false) ∧
    ((tryFillField (fun _ => some 0) [Elem.mk "A" false] ["#f"] "B").2)[0]?
      = some (Elem.mk "A" false) ∧
    ((fillFormFields (fun _ => some 0) [Elem.mk "A" false]
        ⟨some "B", none, none, none⟩ genericMapping).2)[0]?
      = some (Elem.mk "A" false) :=
  ⟨by decide,
   C7_no_overwrite_readable.1 _ _ _ _ _ _ (by decide) rfl (by decide),
   C7_no_overwrite_readable.2 _ _ _ _ _ _ (by decide) rfl (by decide)⟩

/-- Association lookup walks past a block that does not contain the key. -/
theorem lookup_append_none (a : String) (l1 l2 : List (String × String))
    (h : l1.lookup a = none) : (l1 ++ l2).lookup a = l2.lookup a := by
  induction l1 with
  | nil => rfl
  | cons kv t ih =>
      obtain ⟨k, v⟩ := kv
      simp only [List.cons_append, List.lookup] at h ⊢
      cases hk : (a == k)
      · rw [hk] at h
        simpa [hk] using ih (by simpa using h)
      · rw [hk] at h
        simp at h

/-- C9: a profile dictionary lacking the `email` key entirely gets the
hard-coded non-empty default `"Nirajan.tech@gmail.com"` as its email — the
filler behaves exactly as if the profile carried that address, so it
attempts the email fill with it — while a profile whose `email` value is
present but equal to `""` makes the filler skip the email field: a missing
key and an empty value behave differently at the fill step. -/
theorem C9_email_default :
    (∀ p : Profile, p.email = none →
      (profileData p).lookup "email" = some "Nirajan.tech@gmail.com") ∧
    (∀ (resolve : String → Option Nat) (elems : List Elem) (p : Profile)
        (mappings : List (String × List String)), p.email = none →
        fillFormFields resolve elems p mappings =
          fillFormFields resolve elems
            { p with email := some "Nirajan.tech@gmail.com" } mappings) ∧
    (∀ (resolve : String → Option Nat) (elems : List Elem) (p : Profile)
        (mappings : List (String × List String)), p.email = some "" →
        (fillFormFields resolve elems p mappings).1.lookup "email" = none) := by
  refine ⟨?_, ?_, ?_⟩
  · intro p h
    simp only [profileData, h, Option.getD_none]
    rfl
  · intro resolve elems p mappings h
    have hpd : profileData p =
        profileData { p with email := some "Nirajan.tech@gmail.com" } := by
      simp [profileData, h]
    have hstep : fillStep resolve p =
        fillStep resolve { p with email := some "Nirajan.tech@gmail.com" } := by
      funext acc fm
      unfold fillStep
      rw [hpd]
    unfold fillFormFields
    rw [hstep]
  · intro resolve elems p mappings h
    have hemail : (profileData p).lookup "email" = some "" := by
      simp only [profileData, h]
      rfl
    have key : ∀ (l : List (String × List String))
        (acc : List (String × String) × List Elem),
        acc.1.lookup "email" = none →
        ((l.foldl (fillStep resolve p) acc).1).lookup "email" = none := by
      intro l
      induction l with
      | nil => intro acc hacc; exact hacc
      | cons fm rest ihl =>
          intro acc hacc
          simp only [List.foldl_cons]
          apply ihl
          unfold fillStep
          cases hlk : (profileData p).lookup fm.1 with
          | none => exact hacc
          | some value =>
              dsimp only
              split_ifs with hval
              · exact hacc
              · cases htf : tryFillField resolve acc.2 fm.2 value with
                | mk ok elems' =>
                    cases ok
                    · simpa using hacc
                    · dsimp only
                      have hne : ¬ fm.1 = "email" := by
                        intro hfm
                        rw [hfm, hemail] at hlk
                        cases hlk
                        exact hval rfl
                      have hbeq : ("email" == fm.1) = false :=
                        beq_eq_false_iff_ne.2 fun hx => hne hx.symm
                      rw [lookup_append_none _ _ _ hacc]
                      simp [List.lookup, hbeq]
    exact key mappings ([], elems) rfl

/-- C9, witness: with `first_name` present, a profile missing `email` gets
the default address filled into an empty form, while a profile with
`email = ""` leaves the email field unfilled. -/
theorem C9_witness :
    (profileData ⟨some "A", none, none, none⟩).lookup "email"
      = some "Nirajan.tech@gmail.com" ∧
    fillFormFields (fun _ => some 0) [Elem.mk "" false]
        ⟨some "A", none, none, none⟩ genericMapping =
      fillFormFields (fun _ => some 0) [Elem.mk "" false]
        ⟨some "A", none, some "Nirajan.tech@gmail.com", none⟩ genericMapping ∧
    (fillFormFields (fun _ => some 0) [Elem.mk "" false]
        ⟨some "A", none, some "", none⟩ genericMapping).1.lookup "email"
      = none :=
  ⟨C9_email_default.1 _ rfl,
   C9_email_default.2.1 _ _ _ _ rfl,
   C9_email_default.2.2 _ _ _ _ rfl⟩

/-- A strategy table whose selected strategy raises `"boom"`. -/
def boomTable :
    String → Option String → Profile → Page → Nat → Except String RDict :=
  fun _ _ _ _ _ => .error "boom"

/-- A strategy table whose selected strategy raises `"x"`. -/
def errTable :
    String → Option String → Profile → Page → Nat → Except String RDict :=
  fun _ _ _ _ _ => .error "x"

/-- The optimizer's own (never-raising) strategy table. -/
def okTable :
    String → Option String → Profile → Page → Nat → Except String RDict :=
  fun ats job p page conf => .ok (strategyFor ats job p page conf)

/-- C4, counterexample: a strategy that raises `"boom"` is converted into a
`failed` result carrying the error text, but that result is returned with
the metrics object untouched (still the initial metrics), although a pass
through the metrics updater would have incremented `total_attempts` to 1 —
refuting "every result — success or failure — is passed through the metrics
update before being returned". -/
theorem C4_counterexample :
    (optimizeApplicationFlowWith boomTable 0 initMetrics (some "u")
        emptyProfile nullPage).1.status = "failed" ∧
    (optimizeApplicationFlowWith boomTable 0 initMetrics (some "u")
        emptyProfile nullPage).1.error = some "boom" ∧
    (optimizeApplicationFlowWith boomTable 0 initMetrics (some "u")
        emptyProfile nullPage).2 = initMetrics ∧
    (updateApplicationMetrics initMetrics
        (optimizeApplicationFlowWith boomTable 0 initMetrics (some "u")
          emptyProfile nullPage).1).total_attempts = 1 := by
  refine ⟨rfl, rfl, rfl, rfl⟩

/-- C4 (amended): for every strategy table, any exception raised inside the
selected strategy is caught and converted into a result with status
`failed` carrying the error text, and the dispatcher itself never raises
(it is a total function); a result returned normally by the strategy is
passed through the metrics update before being returned — but the `failed`
result synthesised from a strategy exception is returned with the metrics
unchanged, skipping the update. -/
theorem C4_dispatcher
    (table : String → Option String → Profile → Page → Nat → Except String RDict)
    (duration : ℚ) (m : ApplicationMetrics) (jobUrl : Option String)
    (p : Profile) (page : Page) :
    (∀ e, table (detectAtsSystem page (jobUrl.getD "")).1 jobUrl p page
        (detectAtsSystem page (jobUrl.getD "")).2 = .error e →
      (optimizeApplicationFlowWith table duration m jobUrl p page).1.status
          = "failed" ∧
      (optimizeApplicationFlowWith table duration m jobUrl p page).1.error
          = some e ∧
      (optimizeApplicationFlowWith table duration m jobUrl p page).2 = m) ∧
    (∀ r, table (detectAtsSystem page (jobUrl.getD "")).1 jobUrl p page
        (detectAtsSystem page (jobUrl.getD "")).2 = .ok r →
      (optimizeApplicationFlowWith table duration m jobUrl p page).1 =
        { r with application_duration := duration
                 ats_system := (detectAtsSystem page (jobUrl.getD "")).1
                 ats_confidence := (detectAtsSystem page (jobUrl.getD "")).2 } ∧
      (optimizeApplicationFlowWith table duration m jobUrl p page).2 =
        updateApplicationMetrics m
          (optimizeApplicationFlowWith table duration m jobUrl p page).1) := by
  constructor
  · intro e he
    simp only [optimizeApplicationFlowWith]
    rw [he]
    exact ⟨rfl, rfl, rfl⟩
  · intro r hr
    simp only [optimizeApplicationFlowWith]
    rw [hr]
    exact ⟨rfl, rfl⟩

/-- C4, witness: the two dispatcher paths at concrete inputs — a raising
strategy yields a `failed` result with its error text and unchanged
metrics; the optimizer's own table yields a result that went through the
metrics update. -/
theorem C4_witness :
    (optimizeApplicationFlowWith errTable 0 initMetrics none emptyProfile
        nullPage).1.status = "failed" ∧
    (optimizeApplicationFlowWith errTable 0 initMetrics none emptyProfile
        nullPage).1.error = some "x" ∧
    (optimizeApplicationFlowWith errTable 0 initMetrics none emptyProfile
        nullPage).2 = initMetrics ∧
    (optimizeApplicationFlowWith okTable 0 initMetrics none emptyProfile
        nullPage).2 =
      updateApplicationMetrics initMetrics
        (optimizeApplicationFlowWith okTable 0 initMetrics none emptyProfile
          nullPage).1 := by
  obtain ⟨h1, h2, h3⟩ :=
    (C4_dispatcher errTable 0 initMetrics none emptyProfile nullPage).1 "x" rfl
  exact ⟨h1, h2, h3,
    ((C4_dispatcher okTable 0 initMetrics none emptyProfile nullPage).2 _
      rfl).2⟩

/-- C10: every vendor strategy returns status `applied` whenever its body
completes (which it always does: every fallible step it performs is
internally guarded), even when zero fields were filled, and no strategy
ever produces `manual_review`; consequently the `manual_reviews_required`
counter stays 0 over every sequence of `optimize_application_flow` calls
started from fresh metrics. -/
theorem C10_no_manual_review :
    (∀ (ats : String) (job : Option String) (p : Profile) (page : Page)
        (conf : Nat), (strategyFor ats job p page conf).status = "applied") ∧
    (∀ inputs : List (Option String × Profile × Page × ℚ),
      (runApplications inputs initMetrics).manual_reviews_required = 0) := by
  have hstatus : ∀ (ats : String) (job : Option String) (p : Profile)
      (page : Page) (conf : Nat),
      (strategyFor ats job p page conf).status = "applied" := by
    intro ats job p page conf
    unfold strategyFor
    split_ifs <;> rfl
  have hpres : ∀ (duration : ℚ) (m : ApplicationMetrics)
      (jobUrl : Option String) (p : Profile) (page : Page),
      ((optimizeApplicationFlow duration m jobUrl p page).2).manual_reviews_required
        = m.manual_reviews_required := by
    intro duration m jobUrl p page
    unfold optimizeApplicationFlow optimizeApplicationFlowWith
    dsimp only
    obtain ⟨-, -, -, h4⟩ := updateApplicationMetrics_counters m
      { strategyFor (detectAtsSystem page (jobUrl.getD "")).1 jobUrl p page
          (detectAtsSystem page (jobUrl.getD "")).2 with
        application_duration := duration
        ats_system := (detectAtsSystem page (jobUrl.getD "")).1
        ats_confidence := (detectAtsSystem page (jobUrl.getD "")).2 }
    rw [h4]
    simp [hstatus]
  refine ⟨hstatus, ?_⟩
  have key : ∀ (l : List (Option String × Profile × Page × ℚ))
      (m : ApplicationMetrics),
      (runApplications l m).manual_reviews_required
        = m.manual_reviews_required := by
    intro l
    induction l with
    | nil => intro m; rfl
    | cons inp t ih =>
        intro m
        have hstepeq : runApplications (inp :: t) m =
            runApplications t
              ((optimizeApplicationFlow inp.2.2.2 m inp.1 inp.2.1
                inp.2.2.1).2) := rfl
        rw [hstepeq, ih, hpres]
  intro inputs
  rw [key inputs initMetrics]
  rfl

/-- An attempt environment in which document generation always fails
(`_generate_documents_with_fallback` returns an empty resume path). -/
def docFailEnv : Nat → Nat → BatchAttempt := fun _ _ => ⟨"", true, "", false⟩

/-- The job built from the CSV row `{url:"http://a.com/job", title:"Y"}`. -/
def jobY : CsvJob :=
  ⟨"http://a.com/job", "Y", "Unknown Company", "Unknown Location", "",
    "CSV Import"⟩

/-- C3, failing input: one job with a URL whose document generation fails.
The loop prints an error and `break`s (line 296) without incrementing any
bucket, so the returned statistics have `total = 1` but
`applied + manual + failed + skipped = 0` — the job is silently dropped
from the accounting, contradicting the claimed invariant (and the spec's
"abort job as failed" / "no silent job loss").  The same happens when
submitter acquisition fails (line 307). -/
theorem C3_docgen_failure_drops_job :
    (applyToJobs docFailEnv [jobY]).total = 1 ∧
    (applyToJobs docFailEnv [jobY]).applied
      + (applyToJobs docFailEnv [jobY]).manual
      + (applyToJobs docFailEnv [jobY]).failed
      + (applyToJobs docFailEnv [jobY]).skipped = 0 := by
  refine ⟨rfl, rfl⟩

/-- Evaluating `apply_to_jobs` on a single-job list reduces to the retry
loop (or a skip for a blank URL), with `total` fixed at 1. -/
theorem applyToJobs_single (env : Nat → Nat → BatchAttempt) (j : CsvJob) :
    applyToJobs env [j] =
      if j.url = "" then
        { applied := 0, failed := 0, manual := 0, total := 1, retried := 0
          skipped := 1 }
      else applyJobLoop (env 0)
        { applied := 0, failed := 0, manual := 0, total := 1, retried := 0
          skipped := 0 } := rfl

/-- The CSV input of the C8 scenario: header `url,title`, rows
`{url:"", title:"X"}` and `{url:"http://a.com/job", title:"Y"}`. -/
def c8Csv : CsvFile :=
  ⟨["url", "title"],
    [[("url", ""), ("title", "X")], [("url", "http://a.com/job"), ("title", "Y")]]⟩

/-- C8, counterexample: for the scenario CSV the pipeline statistics do not
show `skipped = 1` and `total = 2` — the blank-url row is dropped by
`read_csv_jobs` before the batch runner ever sees it. -/
theorem C8_counterexample :
    ¬ ((applyToJobs docFailEnv (readCsvJobs c8Csv)).skipped = 1 ∧
       (applyToJobs docFailEnv (readCsvJobs c8Csv)).total = 2) := by
  decide

/-- C8 (amended): the row with the blank `url` is skipped with a console
warning — not an error — at CSV-reading time, so the batch runner receives
only the second row's job and its statistics report `total = 1` and
`skipped = 0` for every attempt environment (the runner's own `skipped`
counter only fires for jobs handed to it directly with a falsy URL). -/
theorem C8_blank_url_row_dropped (env : Nat → Nat → BatchAttempt) :
    readCsvJobs c8Csv = [jobY] ∧
    (applyToJobs env (readCsvJobs c8Csv)).total = 1 ∧
    (applyToJobs env (readCsvJobs c8Csv)).skipped = 0 := by
  have hread : readCsvJobs c8Csv = [jobY] := by decide
  refine ⟨hread, ?_, ?_⟩
  · rw [hread, applyToJobs_single, if_neg (by decide : ¬ jobY.url = "")]
    exact (applyJobLoopGo_total_skipped (env 0) 3 0 _).1
  · rw [hread, applyToJobs_single, if_neg (by decide : ¬ jobY.url = "")]
    exact (applyJobLoopGo_total_skipped (env 0) 3 0 _).2

end JobLens
